import Mathlib

/-!
# Verification of the bandwidth-hero image proxy (`src/proxy1.js`)

Shallow embedding of the request pipeline of `src/proxy1.js` (the named
source file; the files under `src/unnamed/` are near-duplicate variants of
the same module).  Pure decision logic (`shouldCompress`, parameter
parsing, the resize-height cap) is embedded as Lean functions; the
stateful response object (`http.ServerResponse`) is embedded as an
explicit record `Res` threaded through the header-mutating operations
(`setHeader` / `removeHeader` / `end`).

Modelling conventions:
* JavaScript numbers that may be `NaN` (results of `parseInt`) are
  `Option Int`, with `none` standing for `NaN`; the JS comparisons
  `=== 0` and `< k` on such values are `jsEqZero` / `jsLt` (both are
  `false` on `NaN`, as in JS).
* Header names are case-insensitive (Node's `setHeader`/`removeHeader`
  lower-case internally); the header map of a `Res` is a function from
  lower-cased names to optional values.
* Origin response headers (`originRes.headers`) arrive from Node with
  already lower-cased keys; they are modelled as an association list.
* Truthiness of an optional query/header string (`!x`, `if (x)`) is
  `jsTruthy`: `undefined` and the empty string are falsy.
* `ToNumber` coercion used by the loose comparison `req.query.bw != 0`
  follows the `StringNumericLiteral` grammar (empty/whitespace → 0,
  signed decimal with optional fraction and exponent, `0x`/`0b`/`0o`
  radix prefixes, `Infinity`), with exact rational values; `none` stands
  for a non-finite result (`NaN`/`±Infinity`), which differs from 0 —
  the only comparison the program performs.
* `res.status = 302` in `redirect` (src/proxy1.js line 46) is a dead
  store on the response object: `status` is not the wire-status property
  (that is `statusCode`, which the same file assigns in
  `_onRequestError`), so the embedded `redirect` leaves `statusCode`
  unchanged and the redirect response goes out with the default 200.
-/

namespace Proxy

/-! ## JS primitive semantics -/

/-- `s.startsWith(pre)`, computed structurally on the character lists so
that closed instances reduce in the kernel. -/
def strStartsWith (s pre : String) : Bool :=
  pre.data.isPrefixOf s.data

/-- `s.endsWith(suf)`. -/
def strEndsWith (s suf : String) : Bool :=
  suf.data.reverse.isPrefixOf s.data.reverse

/-- ASCII lower-casing of a header name, computed structurally. -/
def strToLower (s : String) : String :=
  ⟨s.data.map Char.toLower⟩

/-- JS truthiness of an optional string: `undefined` and `""` are falsy. -/
def jsTruthy : Option String → Bool
  | none => false
  | some s => !(s == "")

/-- Value of a run of decimal digits. -/
def digitsToNat (ds : List Char) : Nat :=
  ds.foldl (fun a c => a * 10 + (c.toNat - 48)) 0

/-- JS `parseInt(s, 10)`: skip leading whitespace, optional sign, read the
longest leading run of decimal digits, and return `NaN` (`none`) when that
run is empty.  Trailing garbage is ignored, exactly as in JS. -/
def jsParseInt (s : String) : Option Int :=
  let t := s.data.dropWhile Char.isWhitespace
  let signAndRest : Int × List Char :=
    match t with
    | c :: rest =>
      if c = '-' then (-1, rest)
      else if c = '+' then (1, rest) else (1, t)
    | [] => (1, [])
  let ds := signAndRest.2.takeWhile Char.isDigit
  if ds.isEmpty then none else some (signAndRest.1 * (digitsToNat ds : Int))

/-- Value of a hexadecimal digit, `none` for any other character. -/
def hexVal (c : Char) : Option Nat :=
  if c.isDigit then some (c.toNat - 48)
  else if 65 ≤ c.toNat ∧ c.toNat ≤ 70 then some (c.toNat - 55)
  else if 97 ≤ c.toNat ∧ c.toNat ≤ 102 then some (c.toNat - 87)
  else none

/-- Value of a binary digit. -/
def binVal (c : Char) : Option Nat :=
  if c = '0' ∨ c = '1' then some (c.toNat - 48) else none

/-- Value of an octal digit. -/
def octVal (c : Char) : Option Nat :=
  if c.isDigit ∧ c.toNat ≤ 55 then some (c.toNat - 48) else none

/-- Value of a digit run in a given radix (digits already validated). -/
def digitsToNatBase (radix : Nat) (valOf : Char → Option Nat) (ds : List Char) : Nat :=
  ds.foldl (fun a c => a * radix + ((valOf c).getD 0)) 0

/-- The optional `ExponentPart` at the end of a decimal numeric literal:
the empty remainder means exponent 0; `e`/`E` followed by an optionally
signed digit run is that exponent; anything else makes the literal
invalid. -/
def parseExpPart (cs : List Char) : Option Int :=
  match cs with
  | [] => some 0
  | c :: rest =>
    if c = 'e' ∨ c = 'E' then
      match rest with
      | [] => none
      | d :: ds =>
        if d = '+' then
          if ds ≠ [] ∧ ds.all Char.isDigit then some (digitsToNat ds : Int) else none
        else if d = '-' then
          if ds ≠ [] ∧ ds.all Char.isDigit then some (-(digitsToNat ds : Int)) else none
        else
          if (d :: ds).all Char.isDigit then some (digitsToNat (d :: ds) : Int)
          else none
    else none

/-- Exact value of a decimal literal `intDigits . fracDigits e exp`:
`digits(int ++ frac) · 10^exp / 10^|frac|`, expressed with `mkRat` over
integer numerator and power-of-ten denominator. -/
def decimalValue (intDigits fracDigits : List Char) (e : Int) : Rat :=
  let m : Int := (digitsToNat (intDigits ++ fracDigits) : Int)
  if 0 ≤ e then
    mkRat (m * ((10 ^ e.toNat : Nat) : Int)) (10 ^ fracDigits.length)
  else
    mkRat m (10 ^ (fracDigits.length + (-e).toNat))

/-- JS `StrUnsignedDecimalLiteral` (without sign): `digits [. digits]` or
`. digits`, with an optional exponent part; the whole input must be
consumed. -/
def parseDecimalLiteral (cs : List Char) : Option Rat :=
  let intDigits := cs.takeWhile Char.isDigit
  let rest1 := cs.drop intDigits.length
  match rest1 with
  | '.' :: rest2 =>
    let fracDigits := rest2.takeWhile Char.isDigit
    let rest3 := rest2.drop fracDigits.length
    if intDigits.isEmpty ∧ fracDigits.isEmpty then none
    else (parseExpPart rest3).map (decimalValue intDigits fracDigits)
  | _ =>
    if intDigits.isEmpty then none
    else (parseExpPart rest1).map (decimalValue intDigits [])

/-- An optionally signed decimal literal or `Infinity`.  Non-finite
results (`NaN`, `±Infinity`) are `none`: the program only ever compares
the result with 0, and both differ from 0 in JS. -/
def signedDecimal (t : List Char) : Option Rat :=
  match t with
  | '+' :: rest =>
    if rest = "Infinity".data then none else parseDecimalLiteral rest
  | '-' :: rest =>
    if rest = "Infinity".data then none
    else (parseDecimalLiteral rest).map (fun v => -v)
  | _ =>
    if t = "Infinity".data then none else parseDecimalLiteral t

/-- JS `ToNumber` on a string (the `StringNumericLiteral` grammar): trim
whitespace; the empty string is 0; `0x`/`0X`, `0b`/`0B`, `0o`/`0O`
prefixes introduce unsigned hex/binary/octal integers; otherwise an
optionally signed decimal literal with optional fraction and exponent
(`"0.0"`, `".0"`, `"0e0"`, `"12."`, `"1e+2"`, ...).  The value is the
exact rational value of the literal; `none` stands for a non-finite
result (`NaN` for invalid input, `±Infinity`), which like `NaN` differs
from 0 — the only comparison the proxy performs (`req.query.bw != 0`).
IEEE-754 rounding of extreme exponents is not modelled. -/
def jsToNumber (s : String) : Option Rat :=
  let t := (s.data.dropWhile Char.isWhitespace).reverse.dropWhile Char.isWhitespace |>.reverse
  match t with
  | [] => some 0
  | '0' :: x :: rest =>
    if x = 'x' ∨ x = 'X' then
      if rest ≠ [] ∧ rest.all (fun c => (hexVal c).isSome) then
        some ((digitsToNatBase 16 hexVal rest : Nat) : Rat)
      else none
    else if x = 'b' ∨ x = 'B' then
      if rest ≠ [] ∧ rest.all (fun c => (binVal c).isSome) then
        some ((digitsToNatBase 2 binVal rest : Nat) : Rat)
      else none
    else if x = 'o' ∨ x = 'O' then
      if rest ≠ [] ∧ rest.all (fun c => (octVal c).isSome) then
        some ((digitsToNatBase 8 octVal rest : Nat) : Rat)
      else none
    else signedDecimal t
  | _ => signedDecimal t

/-- JS `x === 0` for a number that may be `NaN`: `NaN === 0` is `false`. -/
def jsEqZero : Option Int → Bool
  | none => false
  | some x => x == 0

/-- JS `x < b` for a number that may be `NaN`: any comparison with `NaN`
is `false`. -/
def jsLt (a : Option Int) (b : Int) : Bool :=
  match a with
  | none => false
  | some x => decide (x < b)

/-! ## encodeURI -/

/-- Characters that JS `encodeURI` leaves unescaped: ASCII alphanumerics
plus `; , / ? : @ & = + $ - _ . ! ~ * ( ) #` and the apostrophe
(code point 39). -/
def isURIUnescapedChar (c : Char) : Bool :=
  (c.isAlpha && c.toNat < 128) || c.isDigit ||
  c = '-' || c = '_' || c = '.' || c = '!' || c = '~' || c = '*' || c.toNat = 39 ||
  c = '(' || c = ')' || c = ';' || c = '/' || c = '?' || c = ':' || c = '@' ||
  c = '&' || c = '=' || c = '+' || c = '$' || c = ',' || c = '#'

/-- UTF-8 bytes of a character, as naturals below 256. -/
def utf8Bytes (c : Char) : List Nat :=
  let n := c.toNat
  if n < 0x80 then [n]
  else if n < 0x800 then [0xC0 + n / 0x40, 0x80 + n % 0x40]
  else if n < 0x10000 then
    [0xE0 + n / 0x1000, 0x80 + (n / 0x40) % 0x40, 0x80 + n % 0x40]
  else
    [0xF0 + n / 0x40000, 0x80 + (n / 0x1000) % 0x40, 0x80 + (n / 0x40) % 0x40, 0x80 + n % 0x40]

/-- Upper-case hexadecimal digit for a natural below 16. -/
def hexDigit (n : Nat) : Char :=
  if n < 10 then Char.ofNat (48 + n) else Char.ofNat (55 + n)

/-- `%XX` percent-encoding of one byte. -/
def percentByte (b : Nat) : String :=
  "%" ++ String.singleton (hexDigit (b / 16)) ++ String.singleton (hexDigit (b % 16))

/-- JS `encodeURI`: unescaped characters pass through; every other
character is replaced by the percent-encoding of its UTF-8 bytes. -/
def encodeURI (s : String) : String :=
  s.data.foldl
    (fun acc c =>
      acc ++ (if isURIUnescapedChar c then String.singleton c
              else String.join ((utf8Bytes c).map percentByte)))
    ""

/-! ## The response object -/

/-- State of the client `http.ServerResponse`: the header map (keyed by
lower-cased header name), the status code (Node default `200`), written
body chunks, whether headers have been flushed, and how many times
`res.end()` has run (to state single-finalization). -/
structure Res where
  headersSent : Bool
  statusCode : Nat
  headers : String → Option String
  body : List String
  endCount : Nat

/-- A fresh response at request start: nothing sent, Node's default
status `200`, no headers, empty body. -/
def freshRes : Res :=
  { headersSent := false, statusCode := 200, headers := fun _ => none,
    body := [], endCount := 0 }

/-- `res.setHeader(k, v)`: case-insensitive store. -/
def Res.setHeader (res : Res) (k v : String) : Res :=
  { res with headers := fun q => if q = strToLower k then some v else res.headers q }

/-- `res.removeHeader(k)`. -/
def Res.removeHeader (res : Res) (k : String) : Res :=
  { res with headers := fun q => if q = strToLower k then none else res.headers q }

/-- `res.getHeader(k)` (case-insensitive read, used to state properties). -/
def Res.getHeader (res : Res) (k : String) : Option String :=
  res.headers (strToLower k)

/-- `res.end()`: flushes headers and finalizes the response. -/
def Res.endRes (res : Res) : Res :=
  { res with headersSent := true, endCount := res.endCount + 1 }

/-- `res.end(chunk)`: writes a final chunk, then finalizes. -/
def Res.endWith (res : Res) (s : String) : Res :=
  Res.endRes { res with body := res.body ++ [s] }

/-! ## shouldCompress (src/proxy1.js lines 13-23) -/

/-- `MIN_COMPRESS_LENGTH`. -/
def MIN_COMPRESS_LENGTH : Int := 1024

/-- `MIN_TRANSPARENT_COMPRESS_LENGTH = MIN_COMPRESS_LENGTH * 100`. -/
def MIN_TRANSPARENT_COMPRESS_LENGTH : Int := MIN_COMPRESS_LENGTH * 100

/-- `DEFAULT_QUALITY`. -/
def DEFAULT_QUALITY : Int := 40

/-- `shouldCompress` from `src/proxy1.js`.  `originSize` is the
(possibly `NaN`) result of `parseInt` on the `content-length` header;
`hasRange` is the truthiness of the inbound `Range` header. -/
def shouldCompress (originType : String) (originSize : Option Int)
    (hasRange : Bool) (webp : Bool) : Bool :=
  if !(strStartsWith originType "image") then false
  else if jsEqZero originSize then false
  else if hasRange then false
  else if webp && jsLt originSize MIN_COMPRESS_LENGTH then false
  else if !webp && (strEndsWith originType "png" || strEndsWith originType "gif")
      && jsLt originSize MIN_TRANSPARENT_COMPRESS_LENGTH then false
  else true

/-- `parseInt(originRes.headers["content-length"] || "0", 10)`
(src/proxy1.js line 183): an absent header is replaced by the string
`"0"` before parsing. -/
def originSizeOf (contentLength : Option String) : Option Int :=
  jsParseInt (contentLength.getD "0")

/-! ## helper lemmas -/

theorem jsLt_iff (a : Option Int) (b : Int) :
    jsLt a b = true ↔ ∃ n, a = some n ∧ n < b := by
  cases a <;> simp [jsLt]

theorem jsEqZero_iff (a : Option Int) : jsEqZero a = true ↔ a = some 0 := by
  cases a <;> simp [jsEqZero]

/-! ## Query-parameter parsing (src/proxy1.js lines 127-136) -/

/-- The inbound query string, as optional raw parameter values
(`req.query.url`, `req.query.jpeg`, `req.query.bw`, `req.query.l`). -/
structure Query where
  url : Option String
  jpeg : Option String
  bw : Option String
  l : Option String

/-- `req.params` as built by `hhproxy`. -/
structure Params where
  url : String
  webp : Bool
  grayscale : Bool
  quality : Int

/-- `req.query.bw != 0` (JS loose inequality): `undefined != 0` is true;
for a string the comparison is `ToNumber(bw) ≠ 0`, with `NaN ≠ 0` true. -/
def grayscaleOf (bw : Option String) : Bool :=
  match bw with
  | none => true
  | some s => !(decide (jsToNumber s = some 0))

/-- `parseInt(req.query.l, 10) || DEFAULT_QUALITY`: `NaN` and `0` are
falsy, so both fall back to the default `40`. -/
def qualityOf (l : Option String) : Int :=
  match l with
  | none => DEFAULT_QUALITY
  | some s =>
    match jsParseInt s with
    | none => DEFAULT_QUALITY
    | some n => if n = 0 then DEFAULT_QUALITY else n

/-- The `req.params` assignment of `hhproxy` (src/proxy1.js lines
131-136).  `webp: !req.query.jpeg`, `grayscale: req.query.bw != 0`,
`quality: parseInt(req.query.l, 10) || DEFAULT_QUALITY`.  The
percent-decoding of `url` (`decodeURIComponent`) is abstracted away: no
claim under verification depends on it, and the field carries the
decoded target URL as an opaque string. -/
def parseParams (q : Query) : Params :=
  { url := q.url.getD ""
    webp := !(jsTruthy q.jpeg)
    grayscale := grayscaleOf q.bw
    quality := qualityOf q.l }

/-! ## redirect (src/proxy1.js lines 37-48) -/

/-- `redirect(req, res)` from `src/proxy1.js`, with `url` standing for
`req.params.url`: a no-op when headers were already sent; otherwise it
sets `content-length: 0`, removes the four caching headers, sets
`location` to `encodeURI(url)` and ends the response.  The source line
`res.status = 302` is a dead store: `status` is not the wire-status
property of the response (`statusCode` is — the same file assigns
`res.statusCode = 400` in `_onRequestError`), so the assignment does not
change the status actually sent, and `statusCode` is left untouched
here. -/
def redirect (url : String) (res : Res) : Res :=
  if res.headersSent then res
  else
    let r1 := res.setHeader "content-length" "0"
    let r2 := ((((r1.removeHeader "cache-control").removeHeader "expires").removeHeader
        "date").removeHeader "etag").setHeader "location" (encodeURI url)
    Res.endRes r2

/-! ## copyHeaders and the response-classification step
(src/proxy1.js lines 26-34 and 169-194) -/

/-- Origin response headers: an association list with Node's lower-cased
keys.  Lookup is first-match. -/
def headerLookup (oh : List (String × String)) (k : String) : Option String :=
  (oh.find? (fun kv => kv.1 == k)).map (fun kv => kv.2)

/-- `copyHeaders(source, target)`: every origin header is written onto
the client response via `setHeader`, in order. -/
def copyHeaders (oh : List (String × String)) (res : Res) : Res :=
  oh.foldl (fun r kv => r.setHeader kv.1 kv.2) res

/-- Outcome of `_onRequestResponse`: the classification either performs a
redirect-to-origin (no transcode, no passthrough, no further fetch), or
hands the prepared response to the transcode path (`compress` is invoked
next), or streams the origin bytes through on the bypass path. -/
inductive ResponseOutcome where
  | redirected (res : Res)
  | transcoding (res : Res) (format : String)
  | bypassed (res : Res)

/-- The four headers set on every success-path response right after
`copyHeaders` (lower-cased). -/
def pipelineHeaderKeys : List String :=
  ["content-encoding", "access-control-allow-origin",
   "cross-origin-resource-policy", "cross-origin-embedder-policy"]

/-- The headers set by `compress` once the encoded size is known
(lower-cased). -/
def transcodeHeaderKeys : List String :=
  ["content-type", "content-length", "x-original-size", "x-bytes-saved"]

/-- The success-path header preparation of `_onRequestResponse`
(src/proxy1.js lines 176-180): `copyHeaders(originRes, res)` followed by
the four fixed `setHeader` calls. -/
def successHeaders (oh : List (String × String)) (res : Res) : Res :=
  ((((copyHeaders oh res).setHeader "Content-Encoding"
      "identity").setHeader "Access-Control-Allow-Origin" "*").setHeader
      "Cross-Origin-Resource-Policy" "cross-origin").setHeader
      "Cross-Origin-Embedder-Policy" "unsafe-none"

/-- The bypass-path header preparation (src/proxy1.js lines 188-191):
`X-Proxy-Bypass: 1` plus the re-copy of the four streaming headers from
the origin when present. -/
def bypassHeaders (oh : List (String × String)) (res : Res) : Res :=
  ["accept-ranges", "content-type", "content-length", "content-range"].foldl
    (fun r k => match headerLookup oh k with
      | some v => r.setHeader k v
      | none => r)
    ((successHeaders oh res).setHeader "X-Proxy-Bypass" "1")

/-- `_onRequestResponse(originRes, req, res)` from `src/proxy1.js`:
status `>= 400` redirects to the origin URL; status `>= 300` with a
truthy `location` header rewrites `req.params.url` to that location and
redirects; otherwise all origin headers are copied, the content-encoding
and CORS headers are set, `OriginMeta` is extracted, and the request
branches on `shouldCompress` into the transcode or bypass path. -/
def onRequestResponse (status : Nat) (oh : List (String × String))
    (p : Params) (hasRange : Bool) (res : Res) : ResponseOutcome :=
  if 400 ≤ status then .redirected (redirect p.url res)
  else if 300 ≤ status && jsTruthy (headerLookup oh "location") then
    .redirected (redirect ((headerLookup oh "location").getD "") res)
  else if shouldCompress ((headerLookup oh "content-type").getD "")
      (originSizeOf (headerLookup oh "content-length")) hasRange p.webp then
    .transcoding (successHeaders oh res) (if p.webp then "webp" else "jpeg")
  else .bypassed (bypassHeaders oh res)

/-! ## compress: response headers and the resize decision
(src/proxy1.js lines 54-123) -/

/-- The resize-height decision of `compress`
(`metadata.height > 16383 ? { height: 16383 } : null`). -/
def resizeHeightOf (h : Nat) : Option Nat :=
  if h > 16383 then some 16383 else none

/-- Resize options passed to the codec when a resize happens: only the
height is constrained (`{ height: 16383 }` leaves the width implicit). -/
structure ResizeOptions where
  width : Option Nat
  height : Option Nat
deriving Repr

/-- The resize options of `compress`: present exactly when the probed
height exceeds 16383, and then `{ width: unconstrained, height: 16383 }`. -/
def resizeOptionsOf (h : Nat) : Option ResizeOptions :=
  if h > 16383 then some { width := none, height := some 16383 } else none

/-- The pixel height of the encoded output: the capped height when a
resize was applied, the original height otherwise (an
aspect-preserving resize to a strictly smaller height never enlarges). -/
def outputHeight (h : Nat) : Nat :=
  (resizeHeightOf h).getD h

/-- The headers written by `compress` when the codec reports the final
encoded size (src/proxy1.js lines 94-97): `Content-Type`,
`Content-Length` = `info.size`, `x-original-size` =
`req.params.originSize`, `x-bytes-saved` = `originSize - info.size`
(exact signed integer subtraction; JS numbers are exact on these
magnitudes). -/
def compressHeaders (format : String) (originSize outSize : Int) (res : Res) : Res :=
  (((res.setHeader "Content-Type" ("image/" ++ format)).setHeader
      "Content-Length" (toString outSize)).setHeader
      "x-original-size" (toString originSize)).setHeader
      "x-bytes-saved" (toString (originSize - outSize))

/-! ## hhproxy entry and the fetch-error handler
(src/proxy1.js lines 127-167) -/

/-- First step of `hhproxy`: either the placeholder short-circuit (no
upstream fetch is attempted) or a fetch with the parsed parameters. -/
inductive EntryOutcome where
  | placeholder (res : Res)
  | fetched (p : Params)

/-- `hhproxy` up to the fetch (src/proxy1.js lines 127-136): a falsy
`url` query parameter short-circuits with `res.end("bandwidth-hero-proxy")`;
otherwise the parameters are parsed and the upstream fetch is issued. -/
def hhproxyEntry (q : Query) (res : Res) : EntryOutcome :=
  if !(jsTruthy q.url) then .placeholder (res.endWith "bandwidth-hero-proxy")
  else .fetched (parseParams q)

/-- `_onRequestError(req, res, err)` from `src/proxy1.js`: the error code
`"ERR_INVALID_URL"` yields status 400 with body `"Invalid URL"`; every
other fetch failure falls back to `redirect`. -/
def onRequestError (errCode : String) (reqUrl : String) (res : Res) : Res :=
  if errCode = "ERR_INVALID_URL" then
    Res.endWith { res with statusCode := 400 } "Invalid URL"
  else redirect reqUrl res

/-! ## Shared helper lemmas -/

/-- Behaviour of `redirect` on a response whose headers were not yet
sent: encoded location, zero content-length, caching headers cleared,
finalized exactly once, and the wire status untouched (the
`res.status = 302` source line is a dead store). -/
theorem redirect_spec (url : String) (res : Res) (h : res.headersSent = false) :
    (redirect url res).statusCode = res.statusCode ∧
    (redirect url res).getHeader "location" = some (encodeURI url) ∧
    (redirect url res).getHeader "content-length" = some "0" ∧
    (redirect url res).getHeader "cache-control" = none ∧
    (redirect url res).getHeader "expires" = none ∧
    (redirect url res).getHeader "date" = none ∧
    (redirect url res).getHeader "etag" = none ∧
    (redirect url res).headersSent = true ∧
    (redirect url res).endCount = res.endCount + 1 := by
  simp [redirect, h, Res.setHeader, Res.removeHeader, Res.getHeader, Res.endRes,
    strToLower]

/-- Setting a header leaves every differently-named entry unchanged. -/
theorem headers_setHeader_ne (r : Res) (k v x : String) (h : x ≠ strToLower k) :
    (r.setHeader k v).headers x = r.headers x := by
  simp [Res.setHeader, h]

/-- `copyHeaders` leaves a name untouched when no copied header has that
(lower-cased) name. -/
theorem copyHeaders_headers_notin (oh : List (String × String)) (r : Res) (x : String)
    (h : ∀ kv ∈ oh, strToLower kv.1 ≠ x) :
    (copyHeaders oh r).headers x = r.headers x := by
  induction oh generalizing r with
  | nil => rfl
  | cons a t ih =>
    rw [show copyHeaders (a :: t) r = copyHeaders t (r.setHeader a.1 a.2) from rfl]
    rw [ih (r.setHeader a.1 a.2) (fun kv hm => h kv (List.mem_cons_of_mem a hm))]
    exact headers_setHeader_ne r a.1 a.2 x
      (fun he => h a (List.mem_cons_self a t) he.symm)

/-- After `copyHeaders`, every origin header (already lower-cased keys,
no duplicate keys) is present verbatim on the client response. -/
theorem copyHeaders_get (oh : List (String × String)) (r : Res) (k v : String)
    (hmem : (k, v) ∈ oh)
    (hlow : ∀ kv ∈ oh, strToLower kv.1 = kv.1)
    (hnodup : (oh.map Prod.fst).Nodup) :
    (copyHeaders oh r).getHeader k = some v := by
  induction oh generalizing r with
  | nil => cases hmem
  | cons a t ih =>
    rw [show copyHeaders (a :: t) r = copyHeaders t (r.setHeader a.1 a.2) from rfl]
    rcases List.mem_cons.mp hmem with heq | hmem2
    · have ha1 : a.1 = k := by rw [← heq]
      have ha2 : a.2 = v := by rw [← heq]
      have hklow : strToLower k = k := by
        have := hlow a (List.mem_cons_self a t)
        rwa [ha1] at this
      have hnotin : ∀ kv ∈ t, strToLower kv.1 ≠ strToLower k := by
        intro kv hm hcontra
        have hkvlow := hlow kv (List.mem_cons_of_mem a hm)
        rw [hkvlow, hklow] at hcontra
        have hkmem : k ∈ t.map Prod.fst := hcontra ▸ List.mem_map_of_mem Prod.fst hm
        have hmap : (a.1 :: t.map Prod.fst).Nodup := by simpa using hnodup
        have hni : k ∉ t.map Prod.fst := ha1 ▸ (List.nodup_cons.mp hmap).1
        exact hni hkmem
      unfold Res.getHeader
      rw [copyHeaders_headers_notin t _ (strToLower k) hnotin]
      rw [hklow]
      rw [← ha1, ← ha2]
      simp [Res.setHeader, hlow a (List.mem_cons_self a t)]
    · exact ih (r.setHeader a.1 a.2) hmem2
        (fun kv hm => hlow kv (List.mem_cons_of_mem a hm))
        (List.nodup_cons.mp hnodup).2

/-- The bypass-path re-copy loop leaves a name untouched when it is not
one of the looped keys. -/
theorem foldCopy_headers_ne (ks : List String) (oh : List (String × String))
    (r : Res) (x : String) (h : ∀ k ∈ ks, strToLower k ≠ x) :
    ((ks.foldl (fun r k => match headerLookup oh k with
        | some v => r.setHeader k v
        | none => r) r).headers) x = r.headers x := by
  induction ks generalizing r with
  | nil => rfl
  | cons a t ih =>
    rw [List.foldl_cons]
    rw [ih _ (fun k hm => h k (List.mem_cons_of_mem a hm))]
    cases hl : headerLookup oh a with
    | none => rfl
    | some v =>
      exact headers_setHeader_ne r a v x
        (fun he => h a (List.mem_cons_self a t) he.symm)

/-- After the success-path header preparation, an origin header whose
name is not one of the four pipeline-set names is still present with its
origin value. -/
theorem successHeaders_get (oh : List (String × String)) (res : Res) (k v : String)
    (hmem : (k, v) ∈ oh)
    (hlow : ∀ kv ∈ oh, strToLower kv.1 = kv.1)
    (hnodup : (oh.map Prod.fst).Nodup)
    (hnotp : k ∉ pipelineHeaderKeys) :
    (successHeaders oh res).getHeader k = some v := by
  have hk : strToLower k = k := hlow (k, v) hmem
  simp only [pipelineHeaderKeys, List.mem_cons, List.not_mem_nil, or_false,
    not_or] at hnotp
  obtain ⟨h1, h2, h3, h4⟩ := hnotp
  unfold successHeaders Res.getHeader
  rw [hk]
  rw [headers_setHeader_ne _ _ _ _ (by
    rw [show strToLower "Cross-Origin-Embedder-Policy"
        = "cross-origin-embedder-policy" from by decide]
    exact h4)]
  rw [headers_setHeader_ne _ _ _ _ (by
    rw [show strToLower "Cross-Origin-Resource-Policy"
        = "cross-origin-resource-policy" from by decide]
    exact h3)]
  rw [headers_setHeader_ne _ _ _ _ (by
    rw [show strToLower "Access-Control-Allow-Origin"
        = "access-control-allow-origin" from by decide]
    exact h2)]
  rw [headers_setHeader_ne _ _ _ _ (by
    rw [show strToLower "Content-Encoding" = "content-encoding" from by decide]
    exact h1)]
  have hcg := copyHeaders_get oh res k v hmem hlow hnodup
  unfold Res.getHeader at hcg
  rw [hk] at hcg
  exact hcg

/-- The bypass path carries `Content-Encoding: identity`: neither the
`X-Proxy-Bypass` marker nor the four re-copied streaming headers touch
the `content-encoding` entry set on the success path. -/
theorem bypassHeaders_contentEncoding (oh : List (String × String)) (res : Res) :
    (bypassHeaders oh res).getHeader "content-encoding" = some "identity" := by
  unfold bypassHeaders Res.getHeader
  rw [show strToLower "content-encoding" = "content-encoding" from by decide]
  rw [foldCopy_headers_ne _ _ _ _ (by decide)]
  rw [headers_setHeader_ne _ _ _ _ (by decide)]
  unfold successHeaders
  rw [headers_setHeader_ne _ _ _ _ (by decide)]
  rw [headers_setHeader_ne _ _ _ _ (by decide)]
  rw [headers_setHeader_ne _ _ _ _ (by decide)]
  show (if "content-encoding" = strToLower "Content-Encoding" then some "identity"
      else (copyHeaders oh res).headers "content-encoding") = some "identity"
  rw [if_pos (by decide)]

/-- The headers written by `compress` do not disturb any header outside
the four transcode-header names. -/
theorem compressHeaders_preserves (format : String) (os sz : Int) (r : Res)
    (k : String) (hk : strToLower k = k) (hnott : k ∉ transcodeHeaderKeys) :
    (compressHeaders format os sz r).getHeader k = r.getHeader k := by
  simp only [transcodeHeaderKeys, List.mem_cons, List.not_mem_nil, or_false,
    not_or] at hnott
  obtain ⟨h1, h2, h3, h4⟩ := hnott
  unfold compressHeaders Res.getHeader
  rw [hk]
  rw [headers_setHeader_ne _ _ _ _ (by
    rw [show strToLower "x-bytes-saved" = "x-bytes-saved" from by decide]
    exact h4)]
  rw [headers_setHeader_ne _ _ _ _ (by
    rw [show strToLower "x-original-size" = "x-original-size" from by decide]
    exact h3)]
  rw [headers_setHeader_ne _ _ _ _ (by
    rw [show strToLower "Content-Length" = "content-length" from by decide]
    exact h2)]
  rw [headers_setHeader_ne _ _ _ _ (by
    rw [show strToLower "Content-Type" = "content-type" from by decide]
    exact h1)]

/-! ## Claim theorems -/

/-- C1.  `shouldCompress` returns `false` exactly when one of the five
documented conditions holds — the origin content-type does not start
with `"image"`, the origin size is `0` (an absent `content-length` is
parsed from the fallback string `"0"`, hence treated as 0), the inbound
request carries a Range header, the output is webp and the origin size
is below 1024, or the output is jpeg, the origin type ends with
`png`/`gif` and the origin size is below 102400 — and returns `true`
otherwise.  In particular, for `image/png` of size 50000 it returns
`true` on the webp path and `false` on the jpeg path. -/
theorem claim1_shouldCompress_characterization :
    (∀ (originType : String) (originSize : Option Int) (hasRange webp : Bool),
      shouldCompress originType originSize hasRange webp = false ↔
        (¬ strStartsWith originType "image" = true ∨
         originSize = some 0 ∨
         hasRange = true ∨
         (webp = true ∧ ∃ n, originSize = some n ∧ n < 1024) ∨
         (webp = false ∧
            (strEndsWith originType "png" = true ∨ strEndsWith originType "gif" = true) ∧
            ∃ n, originSize = some n ∧ n < 102400)))
    ∧ shouldCompress "image/png" (some 50000) false true = true
    ∧ shouldCompress "image/png" (some 50000) false false = false
    ∧ originSizeOf none = some 0 := by
  refine ⟨?_, by decide, by decide, by decide⟩
  intro ot os rng webp
  unfold shouldCompress
  cases os with
  | none =>
    cases rng <;> cases webp <;>
      simp [jsEqZero, jsLt, MIN_COMPRESS_LENGTH, MIN_TRANSPARENT_COMPRESS_LENGTH]
  | some n =>
    cases rng <;> cases webp <;>
      by_cases h : strStartsWith ot "image" = true <;>
      by_cases hz : n = 0 <;>
      by_cases hp : strEndsWith ot "png" = true <;>
      by_cases hg : strEndsWith ot "gif" = true <;>
      simp [jsEqZero, jsLt, MIN_COMPRESS_LENGTH, MIN_TRANSPARENT_COMPRESS_LENGTH,
        h, hz, hp, hg]

/-- C5.  On the transcode path the `x-bytes-saved` header written by
`compress` is exactly the signed integer difference between the
`x-original-size` value and the `content-length` value, and it may be
negative (e.g. original size 100, encoded size 150 gives `-50`). -/
theorem claim5_bytes_saved (format : String) (originSize outSize : Int) (res : Res) :
    (compressHeaders format originSize outSize res).getHeader "x-bytes-saved"
      = some (toString (originSize - outSize)) ∧
    (compressHeaders format originSize outSize res).getHeader "x-original-size"
      = some (toString originSize) ∧
    (compressHeaders format originSize outSize res).getHeader "content-length"
      = some (toString outSize) ∧
    (compressHeaders format originSize outSize res).getHeader "content-type"
      = some ("image/" ++ format) ∧
    (compressHeaders format 100 150 res).getHeader "x-bytes-saved" = some "-50" := by
  refine ⟨rfl, rfl, rfl, rfl, rfl⟩

/-- C8.  The resize decision of `compress`: a probed origin height above
16383 yields a resize capped at exactly 16383; otherwise no resize
options are produced; the output height never exceeds the original
height (no enlargement); and when resize options are produced the width
is left unconstrained. -/
theorem claim8_resize_height (h : Nat) :
    (16383 < h → resizeHeightOf h = some 16383 ∧ outputHeight h = 16383) ∧
    (h ≤ 16383 → resizeHeightOf h = none ∧ outputHeight h = h) ∧
    outputHeight h ≤ h ∧
    (∀ opts, resizeOptionsOf h = some opts →
      opts.width = none ∧ opts.height = some 16383) := by
  by_cases h16 : 16383 < h
  · simp [resizeHeightOf, outputHeight, resizeOptionsOf, h16]
    omega
  · simp [resizeHeightOf, outputHeight, resizeOptionsOf, h16]

/-- C8 witness: a 20000-pixel-high origin is capped at 16383; a
100-pixel-high origin is not resized. -/
theorem claim8_resize_height_witness :
    (resizeHeightOf 20000 = some 16383 ∧ outputHeight 20000 = 16383) ∧
    (resizeHeightOf 100 = none ∧ outputHeight 100 = 100) :=
  ⟨(claim8_resize_height 20000).1 (by decide),
   (claim8_resize_height 100).2.1 (by decide)⟩

/-- C10.  The `l` quality parameter falls back to the default 40 whenever
`parseInt` yields `0` or `NaN` (JS falsy-value fallback); no request can
produce a quality of 0; and `l=0` yields exactly the same parsed
parameters as omitting `l`. -/
theorem claim10_quality_fallback (l : Option String) :
    qualityOf l ≠ 0 ∧
    (∀ s, l = some s → (jsParseInt s = some 0 ∨ jsParseInt s = none) →
      qualityOf l = 40) ∧
    qualityOf (some "0") = qualityOf none ∧
    (∀ q : Query, q.l = some "0" → parseParams q = parseParams { q with l := none }) := by
  refine ⟨?_, ?_, by decide, ?_⟩
  · cases l with
    | none => decide
    | some s =>
      cases hp : jsParseInt s with
      | none => simp [qualityOf, hp, DEFAULT_QUALITY]
      | some n =>
        simp only [qualityOf, hp, DEFAULT_QUALITY]
        split <;> omega
  · intro s hs hz
    subst hs
    rcases hz with hz | hz <;> simp [qualityOf, hz, DEFAULT_QUALITY]
  · intro q hq
    cases q
    simp only at hq
    subst hq
    simp [parseParams]
    decide

/-- C10 witness: `l=00` parses to 0 and falls back to 40, and a request
with `l=0` parses identically to one without `l`. -/
theorem claim10_quality_fallback_witness :
    qualityOf (some "00") = 40 ∧
    parseParams { url := some "x", jpeg := some "1", bw := some "1", l := some "0" }
      = parseParams { url := some "x", jpeg := some "1", bw := some "1", l := none } :=
  ⟨(claim10_quality_fallback (some "00")).2.1 "00" rfl (Or.inl (by decide)),
   (claim10_quality_fallback none).2.2.2
     { url := some "x", jpeg := some "1", bw := some "1", l := some "0" } rfl⟩

/-- C6.  A request whose query has no `url` parameter is answered with
body exactly `"bandwidth-hero-proxy"` and the default status 200, with
the response finalized once and no upstream fetch attempted. -/
theorem claim6_placeholder (q : Query) (h : q.url = none) :
    hhproxyEntry q freshRes = .placeholder (Res.endWith freshRes "bandwidth-hero-proxy") ∧
    (Res.endWith freshRes "bandwidth-hero-proxy").body = ["bandwidth-hero-proxy"] ∧
    (Res.endWith freshRes "bandwidth-hero-proxy").statusCode = 200 ∧
    (Res.endWith freshRes "bandwidth-hero-proxy").endCount = 1 ∧
    (∀ p, hhproxyEntry q freshRes ≠ .fetched p) := by
  refine ⟨?_, rfl, rfl, rfl, ?_⟩
  · simp [hhproxyEntry, h, jsTruthy]
  · intro p hcontra
    rw [show hhproxyEntry q freshRes
        = .placeholder (Res.endWith freshRes "bandwidth-hero-proxy") by
      simp [hhproxyEntry, h, jsTruthy]] at hcontra
    exact EntryOutcome.noConfusion hcontra

/-- C4 counterexample.  The claim fails in two ways on a fresh response:
the `Location` header is `encodeURI` of the origin URL, not the URL
verbatim (they differ whenever the URL contains a character `encodeURI`
escapes, here a space); and the status is not 302 — the source line
`res.status = 302` is a dead store (`statusCode` is the wire status), so
the response keeps the default 200. -/
theorem claim4_redirect_counterexample :
    ((redirect "http://example.com/a b" freshRes).getHeader "location"
      = some "http://example.com/a%20b" ∧
    (redirect "http://example.com/a b" freshRes).getHeader "location"
      ≠ some "http://example.com/a b") ∧
    ((redirect "http://example.com/a b" freshRes).statusCode = 200 ∧
    (redirect "http://example.com/a b" freshRes).statusCode ≠ 302) := by
  decide

/-- C4 as amended.  `redirect` is a no-op when headers were already
sent; otherwise it sets `Location` to `encodeURI` of the origin URL
(identical to the URL itself whenever the URL contains only characters
`encodeURI` leaves unescaped), `Content-Length: 0`, leaves the four
caching headers `cache-control`/`expires`/`date`/`etag` absent, and
finalizes the response exactly once — while the wire status code stays
unchanged (200 for a fresh response): the `res.status = 302` source line
assigns a property that is not the wire status, so the intended 302
never reaches the client. -/
theorem claim4_redirect_characterization (url : String) (res : Res) :
    (res.headersSent = true → redirect url res = res) ∧
    (res.headersSent = false →
      (redirect url res).statusCode = res.statusCode ∧
      (redirect url res).getHeader "location" = some (encodeURI url) ∧
      (redirect url res).getHeader "content-length" = some "0" ∧
      (redirect url res).getHeader "cache-control" = none ∧
      (redirect url res).getHeader "expires" = none ∧
      (redirect url res).getHeader "date" = none ∧
      (redirect url res).getHeader "etag" = none ∧
      (redirect url res).headersSent = true ∧
      (redirect url res).endCount = res.endCount + 1) := by
  constructor
  · intro h; simp [redirect, h]
  · intro h
    exact redirect_spec url res h

/-- C4 witness: a fresh response (status stays at the default 200) and
an already-started response (no-op). -/
theorem claim4_redirect_characterization_witness :
    redirect "http://example.com/img.png" { freshRes with headersSent := true }
      = { freshRes with headersSent := true } ∧
    (redirect "http://example.com/img.png" freshRes).statusCode = freshRes.statusCode ∧
    (redirect "http://example.com/img.png" freshRes).getHeader "location"
      = some (encodeURI "http://example.com/img.png") ∧
    (redirect "http://example.com/img.png" freshRes).endCount = 1 :=
  ⟨(claim4_redirect_characterization "http://example.com/img.png"
      { freshRes with headersSent := true }).1 rfl,
   ((claim4_redirect_characterization "http://example.com/img.png" freshRes).2 rfl).1,
   ((claim4_redirect_characterization "http://example.com/img.png" freshRes).2 rfl).2.1,
   ((claim4_redirect_characterization "http://example.com/img.png" freshRes).2 rfl).2.2.2.2.2.2.2.2⟩

/-- C3 counterexample.  For a 301 with `Location: https://example.com/a
b.png`, the claim fails in two ways: the outgoing `Location` header is
the `encodeURI`-encoded form, not the verbatim origin `Location` value;
and the client does not receive a 302 — the `res.status = 302` line in
`redirect` is a dead store, so the response status stays at the default
200. -/
theorem claim3_classification_counterexample :
    (onRequestResponse 301 [("location", "https://example.com/a b.png")]
        { url := "x", webp := true, grayscale := true, quality := 40 } false freshRes
      = ResponseOutcome.redirected (redirect "https://example.com/a b.png" freshRes) ∧
    (redirect "https://example.com/a b.png" freshRes).getHeader "location"
      = some "https://example.com/a%20b.png" ∧
    (redirect "https://example.com/a b.png" freshRes).getHeader "location"
      ≠ some "https://example.com/a b.png") ∧
    ((redirect "https://example.com/a b.png" freshRes).statusCode = 200 ∧
    (redirect "https://example.com/a b.png" freshRes).statusCode ≠ 302) :=
  ⟨⟨rfl, by decide, by decide⟩, by decide⟩

/-- C3 as amended.  Upstream classification: status ≥ 400 redirects to
the origin URL; status in [300,400) with a (truthy) `Location` header
invokes the redirect-to-origin handler with that location and no
further fetch, producing a finalized response whose `Location` header is
`encodeURI` of the origin `Location` value (identical to it whenever the
value contains only characters `encodeURI` leaves unescaped) and whose
wire status stays unchanged (200 for a fresh response) — the intended
302 is a dead store in `redirect`; and in both cases the outcome is the
redirect: no transcode and no passthrough is attempted. -/
theorem claim3_classification (status : Nat) (oh : List (String × String))
    (p : Params) (hasRange : Bool) (res : Res) :
    (400 ≤ status →
      onRequestResponse status oh p hasRange res
        = ResponseOutcome.redirected (redirect p.url res)) ∧
    (∀ loc, 300 ≤ status → status < 400 →
      headerLookup oh "location" = some loc → loc ≠ "" →
      onRequestResponse status oh p hasRange res
        = ResponseOutcome.redirected (redirect loc res) ∧
      (res.headersSent = false →
        (redirect loc res).statusCode = res.statusCode ∧
        (redirect loc res).getHeader "location" = some (encodeURI loc) ∧
        (redirect loc res).endCount = res.endCount + 1)) := by
  constructor
  · intro h
    simp [onRequestResponse, h]
  · intro loc h3 h4 hlook hne
    have hcond : (300 ≤ status && jsTruthy (headerLookup oh "location")) = true := by
      simp [hlook, jsTruthy, hne, h3]
    have h400 : ¬ 400 ≤ status := by omega
    refine ⟨?_, ?_⟩
    · unfold onRequestResponse
      rw [if_neg h400, if_pos hcond, hlook]
      rfl
    · intro hsent
      exact ⟨(redirect_spec loc res hsent).1, (redirect_spec loc res hsent).2.1,
        (redirect_spec loc res hsent).2.2.2.2.2.2.2.2⟩

/-- C3 witness: a 301 with a safe `Location` value redirects the client
to exactly that value, with the wire status left at the fresh default
200. -/
theorem claim3_classification_witness :
    onRequestResponse 301 [("location", "https://example.com/img.png")]
        { url := "x", webp := true, grayscale := true, quality := 40 } false freshRes
      = ResponseOutcome.redirected (redirect "https://example.com/img.png" freshRes) ∧
    (redirect "https://example.com/img.png" freshRes).statusCode = freshRes.statusCode ∧
    (redirect "https://example.com/img.png" freshRes).getHeader "location"
      = some (encodeURI "https://example.com/img.png") ∧
    encodeURI "https://example.com/img.png" = "https://example.com/img.png" ∧
    freshRes.statusCode = 200 :=
  ⟨((claim3_classification 301 [("location", "https://example.com/img.png")]
      { url := "x", webp := true, grayscale := true, quality := 40 } false freshRes).2
      "https://example.com/img.png" (by decide) (by decide) rfl (by decide)).1,
   (((claim3_classification 301 [("location", "https://example.com/img.png")]
      { url := "x", webp := true, grayscale := true, quality := 40 } false freshRes).2
      "https://example.com/img.png" (by decide) (by decide) rfl (by decide)).2 rfl).1,
   (((claim3_classification 301 [("location", "https://example.com/img.png")]
      { url := "x", webp := true, grayscale := true, quality := 40 } false freshRes).2
      "https://example.com/img.png" (by decide) (by decide) rfl (by decide)).2 rfl).2.1,
   by decide, by decide⟩

/-- C7.  A fetch failure with error code `ERR_INVALID_URL` (malformed
target URL) yields status 400 with the short plain-text body
`"Invalid URL"` and no redirect (no `Location` header, status not 302);
every other fetch failure falls back to the redirect-to-origin handler
`redirect`, which points the client at the (encoded) origin URL via the
`Location` header and finalizes the response. -/
theorem claim7_fetch_error (errCode url : String) :
    (errCode = "ERR_INVALID_URL" →
      (onRequestError errCode url freshRes).statusCode = 400 ∧
      (onRequestError errCode url freshRes).body = ["Invalid URL"] ∧
      (onRequestError errCode url freshRes).getHeader "location" = none ∧
      (onRequestError errCode url freshRes).statusCode ≠ 302) ∧
    (errCode ≠ "ERR_INVALID_URL" →
      onRequestError errCode url freshRes = redirect url freshRes ∧
      (redirect url freshRes).getHeader "location" = some (encodeURI url) ∧
      (redirect url freshRes).endCount = 1) := by
  constructor
  · intro h
    subst h
    refine ⟨rfl, rfl, rfl, fun hc => ?_⟩
    rw [show (onRequestError "ERR_INVALID_URL" url freshRes).statusCode = 400 from rfl] at hc
    omega
  · intro h
    refine ⟨by simp [onRequestError, h], ?_, ?_⟩ <;>
      simp [redirect, freshRes, Res.setHeader, Res.removeHeader, Res.getHeader,
        Res.endRes, strToLower]

/-- C7 witness: a malformed-URL error and a network-level error. -/
theorem claim7_fetch_error_witness :
    (onRequestError "ERR_INVALID_URL" "http://x/y.png" freshRes).statusCode = 400 ∧
    (onRequestError "ERR_INVALID_URL" "http://x/y.png" freshRes).body = ["Invalid URL"] ∧
    onRequestError "ECONNREFUSED" "http://x/y.png" freshRes
      = redirect "http://x/y.png" freshRes ∧
    (redirect "http://x/y.png" freshRes).getHeader "location"
      = some (encodeURI "http://x/y.png") :=
  ⟨((claim7_fetch_error "ERR_INVALID_URL" "http://x/y.png").1 rfl).1,
   ((claim7_fetch_error "ERR_INVALID_URL" "http://x/y.png").1 rfl).2.1,
   ((claim7_fetch_error "ECONNREFUSED" "http://x/y.png").2 (by decide)).1,
   ((claim7_fetch_error "ECONNREFUSED" "http://x/y.png").2 (by decide)).2.1⟩

/-- C9.  On every successful upstream response (status below 300, or
3xx without a truthy `Location` header), every origin response header is
copied verbatim onto the client response by `copyHeaders` before the
transcode/bypass decision, so origin headers outside the documented
response-header contract (e.g. `cache-control`, `etag`, `set-cookie`)
survive onto the transcoded response — both at decision time and after
`compress` writes its own headers — and the bypass path also carries
`Content-Encoding: identity`.  The outcome is never a redirect. -/
theorem claim9_header_frame (status : Nat) (oh : List (String × String))
    (p : Params) (hasRange : Bool) (res : Res)
    (hstatus : status < 300 ∨
      (status < 400 ∧ jsTruthy (headerLookup oh "location") = false))
    (hlow : ∀ kv ∈ oh, strToLower kv.1 = kv.1)
    (hnodup : (oh.map Prod.fst).Nodup) :
    (∀ r fmt, onRequestResponse status oh p hasRange res = .transcoding r fmt →
      (∀ kv, kv ∈ oh → kv.1 ∉ pipelineHeaderKeys → r.getHeader kv.1 = some kv.2) ∧
      (∀ originSize outSize kv, kv ∈ oh → kv.1 ∉ pipelineHeaderKeys →
        kv.1 ∉ transcodeHeaderKeys →
        (compressHeaders fmt originSize outSize r).getHeader kv.1 = some kv.2)) ∧
    (∀ r, onRequestResponse status oh p hasRange res = .bypassed r →
      r.getHeader "content-encoding" = some "identity") ∧
    (∀ r, onRequestResponse status oh p hasRange res ≠ .redirected r) := by
  have h400 : ¬ 400 ≤ status := by rcases hstatus with h | ⟨h, _⟩ <;> omega
  have hcond : ¬ ((300 ≤ status && jsTruthy (headerLookup oh "location")) = true) := by
    rcases hstatus with h | ⟨h2, hloc⟩
    · have hd : decide (300 ≤ status) = false := decide_eq_false (by omega)
      simp [hd]
    · simp [hloc]
  have hstep : onRequestResponse status oh p hasRange res =
      (if shouldCompress ((headerLookup oh "content-type").getD "")
          (originSizeOf (headerLookup oh "content-length")) hasRange p.webp then
        ResponseOutcome.transcoding (successHeaders oh res)
          (if p.webp then "webp" else "jpeg")
      else ResponseOutcome.bypassed (bypassHeaders oh res)) := by
    unfold onRequestResponse
    rw [if_neg h400, if_neg hcond]
  refine ⟨?_, ?_, ?_⟩
  · intro r fmt heq
    rw [hstep] at heq
    split at heq
    · injection heq with hr hf
      subst hr
      constructor
      · intro kv hm hnp
        exact successHeaders_get oh res kv.1 kv.2 hm hlow hnodup hnp
      · intro os sz kv hm hnp hnt
        rw [compressHeaders_preserves fmt os sz _ kv.1 (hlow kv hm) hnt]
        exact successHeaders_get oh res kv.1 kv.2 hm hlow hnodup hnp
    · exact absurd heq (by simp)
  · intro r heq
    rw [hstep] at heq
    split at heq
    · exact absurd heq (by simp)
    · injection heq with hr
      subst hr
      exact bypassHeaders_contentEncoding oh res
  · intro r heq
    rw [hstep] at heq
    split at heq <;> simp at heq

/-- Origin headers of the C9 witness: an image response carrying `etag`
and `cache-control` metadata. -/
def exampleOriginHeaders : List (String × String) :=
  [("content-type", "image/png"), ("content-length", "2048"),
   ("etag", "abc"), ("cache-control", "max-age=60")]

/-- C9 witness: a 200 `image/png` response of size 2048 on the webp path
is transcoded, and its `etag` and `cache-control` origin headers are
still present on the prepared transcode response. -/
theorem claim9_header_frame_witness :
    (successHeaders exampleOriginHeaders freshRes).getHeader "etag" = some "abc" ∧
    (successHeaders exampleOriginHeaders freshRes).getHeader "cache-control"
      = some "max-age=60" :=
  have h := claim9_header_frame 200 exampleOriginHeaders
    { url := "x", webp := true, grayscale := true, quality := 40 } false freshRes
    (Or.inl (by decide)) (by decide) (by decide)
  ⟨(h.1 _ "webp" rfl).1 ("etag", "abc") (by decide) (by decide),
   (h.1 _ "webp" rfl).1 ("cache-control", "max-age=60") (by decide) (by decide)⟩

/-- C6 witness: the fully absent query. -/
theorem claim6_placeholder_witness :
    hhproxyEntry { url := none, jpeg := none, bw := none, l := none } freshRes
      = .placeholder (Res.endWith freshRes "bandwidth-hero-proxy") ∧
    (Res.endWith freshRes "bandwidth-hero-proxy").body = ["bandwidth-hero-proxy"] :=
  ⟨(claim6_placeholder { url := none, jpeg := none, bw := none, l := none } rfl).1,
   (claim6_placeholder { url := none, jpeg := none, bw := none, l := none } rfl).2.1⟩

end Proxy
